import Mathlib

/-!
Verification development for the `app.py` websocket relay.

The repository is a FastAPI application that relays a browser websocket
(`/ws`) to the Gemini Live upstream websocket.  The development below is a
shallow embedding of the core of `src/app.py`:

* a JSON value model together with a Lean rendition of Python's
  `json.dumps` (default separators, `ensure_ascii=True`);
* `base64.b64encode` / `base64.b64decode` on byte lists (bytes are `Nat`
  values `< 256`); decode is modelled on validly padded alphabet strings,
  which is the domain the relay's claims quantify over;
* the `GeminiLiveSession` class (fields `api_key`, `model`, `ws`; methods
  `connect`, `close`, `send_user_text`, `send_user_audio`,
  `send_user_video`), with the frames it writes made explicit;
* the two pump bodies `client_to_gemini` and `gemini_to_client` of
  `ws_endpoint`, as step functions over decoded inbound events;
* an operational model of the `ws_endpoint` supervisor
  (`asyncio.wait(FIRST_COMPLETED)`, cancel both tasks, `session.close()`)
  parametrised by an explicit interleaving schedule.
-/

namespace App

/-- Decoded JSON values, the result type of Python's `json.loads`. -/
inductive Json where
  | null : Json
  | bool : Bool → Json
  | num : Int → Json
  | str : String → Json
  | arr : List Json → Json
  | obj : List (String × Json) → Json
deriving Repr

/-- One hexadecimal digit, lower case, as produced by Python's `json`
string escaping. -/
def hexDigit (n : Nat) : Char :=
  if n < 10 then Char.ofNat (48 + n) else Char.ofNat (87 + n)

/-- Four hexadecimal digits (the `XXXX` of a `\uXXXX` escape). -/
def hex4 (n : Nat) : String :=
  String.mk [hexDigit (n / 4096 % 16), hexDigit (n / 256 % 16),
             hexDigit (n / 16 % 16), hexDigit (n % 16)]

/-- Escaping of one character inside a JSON string literal, following
Python's `json.dumps` with its default `ensure_ascii=True`: the two-character
escapes for quote, backslash and the usual control characters, `\uXXXX` for
the remaining characters outside the printable ASCII range, and surrogate
pairs above the BMP. -/
def jsonEscapeChar (c : Char) : String :=
  if c = '"' then "\\\""
  else if c = '\\' then "\\\\"
  else if c = '\n' then "\\n"
  else if c = '\r' then "\\r"
  else if c = '\t' then "\\t"
  else if c.toNat = 8 then "\\b"
  else if c.toNat = 12 then "\\f"
  else if c.toNat < 32 || 126 < c.toNat then
    if c.toNat < 65536 then "\\u" ++ hex4 c.toNat
    else
      let v := c.toNat - 65536
      "\\u" ++ hex4 (55296 + v / 1024) ++ "\\u" ++ hex4 (56320 + v % 1024)
  else String.singleton c

/-- Escaping of a whole JSON string body. -/
def jsonEscape (s : String) : String :=
  String.join (s.toList.map jsonEscapeChar)

mutual

/-- Python's `json.dumps` with its default separators `", "` and `": "`,
as used by `app.py` for every upstream frame. -/
def Json.dumps : Json → String
  | .null => "null"
  | .bool true => "true"
  | .bool false => "false"
  | .num n => toString n
  | .str s => "\"" ++ jsonEscape s ++ "\""
  | .arr xs => "[" ++ Json.dumpsArr xs ++ "]"
  | .obj kvs => "\x7b" ++ Json.dumpsObj kvs ++ "\x7d"

/-- Serialization of the elements of a JSON array, comma separated. -/
def Json.dumpsArr : List Json → String
  | [] => ""
  | [x] => x.dumps
  | x :: y :: rest => x.dumps ++ ", " ++ Json.dumpsArr (y :: rest)

/-- Serialization of the members of a JSON object, comma separated. -/
def Json.dumpsObj : List (String × Json) → String
  | [] => ""
  | [(k, v)] => "\"" ++ jsonEscape k ++ "\"" ++ ": " ++ v.dumps
  | (k, v) :: p :: rest =>
      "\"" ++ jsonEscape k ++ "\"" ++ ": " ++ v.dumps ++ ", " ++
        Json.dumpsObj (p :: rest)

end

/-- Python `dict` lookup for a dict built by `json.loads` from an object
with the given member list: the *last* binding of a key wins. -/
def pyLookup (kvs : List (String × Json)) (k : String) : Option Json :=
  (kvs.filter (fun p => p.1 = k)).getLast?.map (·.2)

/-- The standard base64 alphabet used by `base64.b64encode`. -/
def b64chars : List Char :=
  "ABCDEFGHIJKLMNOPQRSTUVWXYZabcdefghijklmnopqrstuvwxyz0123456789+/".toList

/-- The character encoding a 6-bit group. -/
def b64char (i : Nat) : Char := b64chars.getD i 'A'

/-- Position of a character in the base64 alphabet. -/
def b64indexAux : List Char → Char → Option Nat
  | [], _ => none
  | d :: ds, c => if d = c then some 0 else (b64indexAux ds c).map (· + 1)

/-- The 6-bit value a base64 alphabet character stands for; `none` for a
character outside the alphabet (in particular for the `'='` pad). -/
def b64index (c : Char) : Option Nat := b64indexAux b64chars c

/-- `base64.b64encode` on a byte list, producing the padded character
stream three bytes to four characters. -/
def b64encodeBytes : List Nat → List Char
  | [] => []
  | [a] => [b64char (a / 4), b64char (a % 4 * 16), '=', '=']
  | [a, b] => [b64char (a / 4), b64char (a % 4 * 16 + b / 16),
               b64char (b % 16 * 4), '=']
  | a :: b :: c :: rest =>
      b64char (a / 4) :: b64char (a % 4 * 16 + b / 16) ::
      b64char (b % 16 * 4 + c / 64) :: b64char (c % 64) :: b64encodeBytes rest

/-- `base64.b64decode` on a validly padded string over the base64
alphabet: four characters to three bytes, with the one- and two-pad final
groups producing one and two bytes; anything else (a pad in the wrong
position, a character outside the alphabet, a length that is not a
multiple of four) raises `binascii.Error`, modelled as `none`. -/
def b64decodeChars : List Char → Option (List Nat)
  | [] => some []
  | c0 :: c1 :: c2 :: c3 :: rest =>
    match b64index c0, b64index c1 with
    | some i0, some i1 =>
      if c2 = '=' then
        if c3 = '=' ∧ rest = [] then some [i0 * 4 + i1 / 16] else none
      else
        match b64index c2 with
        | some i2 =>
          if c3 = '=' then
            if rest = [] then some [i0 * 4 + i1 / 16, i1 % 16 * 16 + i2 / 4]
            else none
          else
            match b64index c3, b64decodeChars rest with
            | some i3, some tl =>
                some ((i0 * 4 + i1 / 16) :: (i1 % 16 * 16 + i2 / 4) ::
                      (i2 % 4 * 64 + i3) :: tl)
            | _, _ => none
        | none => none
    | _, _ => none
  | _ => none

/-- `base64.b64encode(..).decode()`: the base64 text of a byte list. -/
def b64encode (x : List Nat) : String := (b64encodeBytes x).asString

/-- `base64.b64decode` on a string argument. -/
def b64decode (s : String) : Option (List Nat) := b64decodeChars s.toList

/-- The Python exceptions the relay's code paths can raise. -/
inductive PyErr where
  | keyError : PyErr
  | typeError : PyErr
  | jsonDecodeError : PyErr
  | binasciiError : PyErr
  | transportError : PyErr
deriving DecidableEq, Repr

/-- Python's `d[k]` on a decoded JSON value: a `KeyError` when the object
lacks the key, a `TypeError` when the value is not a dict at all. -/
def Json.getItem (j : Json) (k : String) : Except PyErr Json :=
  match j with
  | .obj kvs =>
    match pyLookup kvs k with
    | some v => .ok v
    | none => .error .keyError
  | _ => .error .typeError

/-! ### The `GeminiLiveSession` class -/

/-- The fixed upstream endpoint `GEMINI_LIVE_WS` of `app.py`. -/
def GEMINI_LIVE_WS : String :=
  "wss://generativelanguage.googleapis.com/ws/google.ai.generativelanguage.v1alpha.LLMService/LiveSession"

/-- State of the upstream websocket transport held in `self.ws`. -/
inductive WsState where
  | opened : WsState
  | closed : WsState
deriving DecidableEq, Repr

/-- The `GeminiLiveSession` object: `api_key` and `model` as passed to
`__init__`, and `self.ws`, which is `None` until `connect` assigns the
transport. -/
structure GeminiLiveSession where
  api_key : String
  model : String
  ws : Option WsState
deriving DecidableEq, Repr

/-- `GeminiLiveSession.__init__`: `model` defaults to
`"models/gemini-2.5-flash"`; `self.ws = None`. -/
def GeminiLiveSession.init (api_key : String)
    (model : String := "models/gemini-2.5-flash") : GeminiLiveSession :=
  { api_key := api_key, model := model, ws := none }

/-- The setup frame `connect` sends right after the transport handshake. -/
def setupJson (model : String) : Json :=
  .obj [("setup", .obj
    [("model", .str model),
     ("response", .obj
       [("modalities", .arr [.str "AUDIO", .str "TEXT"]),
        ("instructions", .str "You are a helpful assistant.")])])]

/-- What a successful `GeminiLiveSession.connect()` does: the URL and
`max_size` handed to `websockets.connect`, the session with `self.ws`
assigned, and the frames written on the fresh transport, in order. -/
structure ConnectResult where
  url : String
  max_size : Nat
  session : GeminiLiveSession
  writes : List String
deriving Repr

/-- `GeminiLiveSession.connect`: builds `GEMINI_LIVE_WS + "?key=" + key`,
connects with `max_size=32*1024*1024`, then sends the serialized setup
frame as the first write. -/
def GeminiLiveSession.connect (s : GeminiLiveSession) : ConnectResult :=
  { url := GEMINI_LIVE_WS ++ "?key=" ++ s.api_key
    max_size := 32 * 1024 * 1024
    session := { s with ws := some .opened }
    writes := [(setupJson s.model).dumps] }

/-- `GeminiLiveSession.close`: `if self.ws: await self.ws.close()`.  The
returned `Nat` counts the `ws.close()` calls issued (the underlying
`websockets` transport close is itself a no-op on an already closed
connection). -/
def GeminiLiveSession.close (s : GeminiLiveSession) : GeminiLiveSession × Nat :=
  match s.ws with
  | none => (s, 0)
  | some _ => ({ s with ws := some .closed }, 1)

/-- `GeminiLiveSession.send_user_text`: the frame written to the upstream
transport.  The Python body serializes whatever value sits in the `text`
slot, so the argument is a JSON value. -/
def GeminiLiveSession.send_user_text (text : Json) : String :=
  (Json.obj [("input", .obj [("text", text)])]).dumps

/-- `GeminiLiveSession.send_user_audio`: the frame written for a PCM16
chunk — mime type `audio/pcm;rate=16000`, payload re-encoded to base64. -/
def GeminiLiveSession.send_user_audio (pcm16 : List Nat) : String :=
  (Json.obj [("input", .obj [("audio", .obj
    [("mime_type", .str "audio/pcm;rate=16000"),
     ("data", .str (b64encode pcm16))])])]).dumps

/-- `GeminiLiveSession.send_user_video`: the frame written for a JPEG
frame — mime type `image/jpeg`, payload base64. -/
def GeminiLiveSession.send_user_video (jpg : List Nat) : String :=
  (Json.obj [("input", .obj [("video", .obj
    [("mime_type", .str "image/jpeg"),
     ("data", .str (b64encode jpg))])])]).dumps

/-! ### The two pumps of `ws_endpoint` -/

/-- One inbound event observed by `client_to_gemini`: either
`websocket.receive_text()` returns a text frame — carried here as the
outcome of `json.loads` on it, `none` when the text is not JSON — or it
raises `WebSocketDisconnect`. -/
inductive ClientIn where
  | msg : Option Json → ClientIn
  | disconnect : ClientIn
deriving Repr

/-- How one iteration of a pump loop body ends. -/
inductive StepOutcome where
  | next : StepOutcome
  | errored : PyErr → StepOutcome
deriving DecidableEq, Repr

/-- The body of the `while True` loop of `client_to_gemini` on one decoded
frame: the upstream frames written and whether the loop continues or the
iteration raised.  `data["type"]` raises on a non-dict or a missing key;
the `==` comparisons are Python equality, so only a string compares equal
to `"text"` / `"audio"`; a frame with any other `type` hits no branch and
is dropped; `base64.b64decode` raises on a non-string `pcm16` and on
invalid base64. -/
def client_to_gemini_step : Option Json → List String × StepOutcome
  | none => ([], .errored .jsonDecodeError)
  | some data =>
    match data.getItem "type" with
    | .error e => ([], .errored e)
    | .ok tv =>
      match tv with
      | .str t =>
        if t = "text" then
          match data.getItem "text" with
          | .error e => ([], .errored e)
          | .ok v => ([GeminiLiveSession.send_user_text v], .next)
        else if t = "audio" then
          match data.getItem "pcm16" with
          | .error e => ([], .errored e)
          | .ok (.str b) =>
            match b64decode b with
            | some bytes => ([GeminiLiveSession.send_user_audio bytes], .next)
            | none => ([], .errored .binasciiError)
          | .ok _ => ([], .errored .typeError)
        else ([], .next)
      | _ => ([], .next)

/-- How a pump task ends: returned normally, raised, or still blocked on
its next receive when the modelled event script runs out. -/
inductive PumpEnd where
  | finished : PumpEnd
  | errored : PyErr → PumpEnd
  | running : PumpEnd
deriving DecidableEq, Repr

/-- The `client_to_gemini` task body over a script of inbound events: the
upstream frames written, and how the task ends.  `WebSocketDisconnect` is
caught (`except WebSocketDisconnect: pass`), so a disconnect finishes the
task normally; any other exception escapes the loop and fails the task. -/
def client_to_gemini : List ClientIn → List String × PumpEnd
  | [] => ([], .running)
  | .disconnect :: _ => ([], .finished)
  | .msg p :: rest =>
    match client_to_gemini_step p with
    | (fs, .next) =>
        let r := client_to_gemini rest
        (fs ++ r.1, r.2)
    | (fs, .errored e) => (fs, .errored e)

/-- One inbound event observed by `gemini_to_client`: the upstream stream
yields a decoded event — paired with whether the following
`websocket.send_json` succeeds (it raises once the client is gone) — or
the upstream connection closes, ending the `async for`. -/
inductive UpstreamIn where
  | item : Json → Bool → UpstreamIn
  | closed : UpstreamIn
deriving Repr

/-- The envelope `gemini_to_client` sends for each upstream event. -/
def geminiEnvelope (evt : Json) : Json :=
  .obj [("type", .str "gemini"), ("data", evt)]

/-- The `gemini_to_client` task body over a script of upstream events: the
envelopes delivered to the client, and how the task ends.  The loop has no
exception handler, so a failing `send_json` raises out of the task. -/
def gemini_to_client : List UpstreamIn → List Json × PumpEnd
  | [] => ([], .running)
  | .closed :: _ => ([], .finished)
  | .item evt ok :: rest =>
    if ok then
      let r := gemini_to_client rest
      (geminiEnvelope evt :: r.1, r.2)
    else ([], .errored .transportError)

/-! ### The relay supervisor of `ws_endpoint`

Lines 115–118 of `app.py` create both pump tasks, block in
`asyncio.wait(tasks, return_when=FIRST_COMPLETED)`, then call `t.cancel()`
on both tasks (a no-op on a task that already completed; a running task is
cancelled at its pending suspension point and abandoned) and finally call
`session.close()` once.  The model below runs the two pumps and this
supervisor as an explicitly scheduled interleaving: a schedule is a list of
choices of which task makes its next step. -/

/-- Status of one pump task. -/
inductive PumpStatus where
  | running : PumpStatus
  | finished : PumpStatus
  | errored : PumpStatus
  | cancelled : PumpStatus
deriving DecidableEq, Repr

/-- Where the supervisor coroutine stands: blocked in `asyncio.wait`,
about to run `session.close()` after cancelling, or returned. -/
inductive Phase where
  | waiting : Phase
  | closing : Phase
  | done : Phase
deriving DecidableEq, Repr

/-- The observable actions of one relay lifetime, in order. -/
inductive RelayAction where
  | clientSend : Json → RelayAction
  | clientClose : RelayAction
  | upstreamConnect : String → Nat → RelayAction
  | upstreamWrite : String → RelayAction
  | cancelTasks : RelayAction
  | upstreamClose : RelayAction
deriving Repr

/-- Recognizer for the `session.close()` action. -/
def RelayAction.isUpstreamClose : RelayAction → Bool
  | .upstreamClose => true
  | _ => false

/-- Recognizer for the task-cancellation action. -/
def RelayAction.isCancel : RelayAction → Bool
  | .cancelTasks => true
  | _ => false

/-- Recognizer for the client-close action. -/
def RelayAction.isClientClose : RelayAction → Bool
  | .clientClose => true
  | _ => false

/-- Recognizer for any frame sent to the client. -/
def RelayAction.isClientSend : RelayAction → Bool
  | .clientSend _ => true
  | _ => false

/-- State of one relay lifetime after the upstream session connected. -/
structure RelayState where
  clientScript : List ClientIn
  upstreamScript : List UpstreamIn
  inStatus : PumpStatus
  outStatus : PumpStatus
  phase : Phase
  trace : List RelayAction
  closeCalls : Nat
deriving Repr

/-- The relay state right after both tasks are created. -/
def initRelay (cs : List ClientIn) (us : List UpstreamIn) : RelayState :=
  { clientScript := cs, upstreamScript := us,
    inStatus := .running, outStatus := .running,
    phase := .waiting, trace := [], closeCalls := 0 }

/-- Which task the scheduler lets make its next step. -/
inductive Who where
  | inP : Who
  | outP : Who
  | sup : Who
deriving DecidableEq, Repr

/-- One step of the `client_to_gemini` task: processes its next inbound
event.  A task that is no longer running (or whose cancellation has been
requested, abandoning the in-flight receive) makes no step. -/
def stepInPump (st : RelayState) : RelayState :=
  if st.inStatus = .running then
    match st.clientScript with
    | [] => st
    | .disconnect :: rest =>
        { st with clientScript := rest, inStatus := .finished }
    | .msg p :: rest =>
      match client_to_gemini_step p with
      | (fs, .next) =>
          { st with clientScript := rest,
                    trace := st.trace ++ fs.map RelayAction.upstreamWrite }
      | (fs, .errored _) =>
          { st with clientScript := rest, inStatus := .errored,
                    trace := st.trace ++ fs.map RelayAction.upstreamWrite }
  else st

/-- One step of the `gemini_to_client` task: processes its next upstream
event. -/
def stepOutPump (st : RelayState) : RelayState :=
  if st.outStatus = .running then
    match st.upstreamScript with
    | [] => st
    | .closed :: rest =>
        { st with upstreamScript := rest, outStatus := .finished }
    | .item evt ok :: rest =>
      if ok then
        { st with upstreamScript := rest,
                  trace := st.trace ++ [.clientSend (geminiEnvelope evt)] }
      else { st with upstreamScript := rest, outStatus := .errored }
  else st

/-- One step of the supervisor: `asyncio.wait(FIRST_COMPLETED)` resumes
only once some task completed; then both tasks get `cancel()` (marking a
still-running task cancelled, a no-op on a completed one); then
`session.close()` runs exactly once and the handler returns. -/
def stepSup (st : RelayState) : RelayState :=
  match st.phase with
  | .waiting =>
    if st.inStatus = .finished ∨ st.inStatus = .errored ∨
       st.outStatus = .finished ∨ st.outStatus = .errored then
      { st with phase := .closing,
                inStatus := if st.inStatus = .running then .cancelled
                            else st.inStatus,
                outStatus := if st.outStatus = .running then .cancelled
                             else st.outStatus,
                trace := st.trace ++ [.cancelTasks] }
    else st
  | .closing =>
      { st with phase := .done, closeCalls := st.closeCalls + 1,
                trace := st.trace ++ [.upstreamClose] }
  | .done => st

/-- One scheduled step. -/
def relayStep (w : Who) (st : RelayState) : RelayState :=
  match w with
  | .inP => stepInPump st
  | .outP => stepOutPump st
  | .sup => stepSup st

/-- Run of the relay under an explicit schedule. -/
def relayRun (sched : List Who) (st : RelayState) : RelayState :=
  sched.foldl (fun s w => relayStep w s) st

/-! ### The `ws_endpoint` handler -/

/-- `if not API_KEY:` — Python falsiness of the module-level credential:
missing from the environment, or present but empty. -/
def credentialMissing : Option String → Bool
  | none => true
  | some s => s.isEmpty

/-- The error frame sent when the credential is missing. -/
def missingKeyFrame : Json := .obj [("error", .str "Missing GOOGLE_API_KEY")]

/-- How the handler coroutine itself ends. -/
inductive Outcome where
  | returned : Outcome
  | raised : Outcome
  | pending : Outcome
deriving DecidableEq, Repr

/-- The environment and event scripts one `ws_endpoint` invocation sees:
the module-level `API_KEY` and `MODEL_ID`, whether
`websockets.connect` succeeds, and the two pumps' event scripts. -/
structure WsInput where
  apiKey : Option String
  modelId : String
  connectOk : Bool
  clientScript : List ClientIn
  upstreamScript : List UpstreamIn

/-- The `ws_endpoint` handler: accept, credential check (error frame and
close on a falsy key, the `GeminiLiveSession` never constructed), then
`session.connect()` — whose failure raises out of the handler before any
task is created — then the two pumps and the supervisor under the given
schedule. -/
def ws_endpoint (inp : WsInput) (sched : List Who) :
    List RelayAction × Outcome :=
  if credentialMissing inp.apiKey then
    ([.clientSend missingKeyFrame, .clientClose], .returned)
  else
    let session := GeminiLiveSession.init (inp.apiKey.getD "") inp.modelId
    let c := session.connect
    if inp.connectOk then
      let final := relayRun sched (initRelay inp.clientScript inp.upstreamScript)
      (.upstreamConnect c.url c.max_size ::
         c.writes.map RelayAction.upstreamWrite ++ final.trace,
       if final.phase = .done then .returned else .pending)
    else
      ([.upstreamConnect c.url c.max_size], .raised)

/-- The handler as driven by the ASGI framework, which closes the client
websocket when the handler coroutine ends — normally or by an escaping
exception — unless the handler closed it already. -/
def handle_ws (inp : WsInput) (sched : List Who) :
    List RelayAction × Outcome :=
  let r := ws_endpoint inp sched
  if r.2 ≠ .pending ∧ ¬ r.1.any RelayAction.isClientClose then
    (r.1 ++ [.clientClose], r.2)
  else r

/-- Recognizer for any action touching the upstream session (construct,
connect, write or close). -/
def RelayAction.isUpstreamAction : RelayAction → Bool
  | .upstreamConnect _ _ => true
  | .upstreamWrite _ => true
  | .upstreamClose => true
  | _ => false

/-- A malformed client frame, as `client_to_gemini` sees it: text that is
not JSON, or JSON on which `data["type"]` raises, or a `text` frame on
which `data["text"]` raises, or an `audio` frame on which `data["pcm16"]`
raises. -/
def malformedFrame (p : Option Json) : Prop :=
  p = none ∨ ∃ d, p = some d ∧
    ((∃ e, d.getItem "type" = .error e) ∨
     (d.getItem "type" = .ok (.str "text") ∧ ∃ e, d.getItem "text" = .error e) ∨
     (d.getItem "type" = .ok (.str "audio") ∧ ∃ e, d.getItem "pcm16" = .error e))

/-- The supervisor invariant of one relay lifetime: before the first pump
terminates nothing has been cancelled or closed; between cancellation and
close there is exactly one cancellation, no close yet, and no pump still
runs; once the handler returned, `session.close()` has run exactly once,
as the last action, after the one cancellation. -/
def RelayInv (st : RelayState) : Prop :=
  match st.phase with
  | .waiting =>
      st.closeCalls = 0 ∧
      st.trace.countP RelayAction.isCancel = 0 ∧
      st.trace.countP RelayAction.isUpstreamClose = 0
  | .closing =>
      st.closeCalls = 0 ∧
      st.trace.countP RelayAction.isCancel = 1 ∧
      st.trace.countP RelayAction.isUpstreamClose = 0 ∧
      st.inStatus ≠ .running ∧ st.outStatus ≠ .running
  | .done =>
      st.closeCalls = 1 ∧
      st.inStatus ≠ .running ∧ st.outStatus ≠ .running ∧
      ∃ pre, st.trace = pre ++ [RelayAction.upstreamClose] ∧
        pre.countP RelayAction.isCancel = 1 ∧
        pre.countP RelayAction.isUpstreamClose = 0

/-! ### Base64 lemmas -/

/-- A hit in the alphabet scan is a position inside the list. -/
theorem b64indexAux_lt : ∀ (l : List Char) (c : Char) (i : Nat),
    b64indexAux l c = some i → i < l.length
  | [], _, _, h => by simp [b64indexAux] at h
  | d :: ds, c, i, h => by
    simp only [List.length_cons]
    by_cases hd : d = c
    · simp [b64indexAux, hd] at h
      omega
    · simp only [b64indexAux, if_neg hd, Option.map_eq_some'] at h
      obtain ⟨j, hj, hji⟩ := h
      have := b64indexAux_lt ds c j hj
      omega

/-- A base64 character stands for a value below 64. -/
theorem b64index_lt (c : Char) (i : Nat) (h : b64index c = some i) : i < 64 := by
  have hlen : b64chars.length = 64 := rfl
  have := b64indexAux_lt b64chars c i h
  omega

/-- The alphabet scan inverts the alphabet table on all 64 entries. -/
theorem b64index_b64char (i : Nat) (h : i < 64) : b64index (b64char i) = some i := by
  have : ∀ j < 64, b64index (b64char j) = some j := by decide
  exact this i h

/-- The pad character is not in the alphabet. -/
theorem b64index_pad : b64index '=' = none := by decide

/-- An alphabet character is never the pad. -/
theorem b64char_ne_pad (i : Nat) (h : i < 64) : b64char i ≠ '=' := by
  intro hc
  have hidx := b64index_b64char i h
  rw [hc, b64index_pad] at hidx
  exact Option.noConfusion hidx

/-- Decoding is a left inverse of encoding on byte lists: the relay's
base64 decode→encode round-trip is lossless. -/
theorem b64decode_b64encodeBytes : ∀ (x : List Nat), (∀ b ∈ x, b < 256) →
    b64decodeChars (b64encodeBytes x) = some x
  | [], _ => rfl
  | [a], h => by
    have ha : a < 256 := h a (by simp)
    have h0 := b64index_b64char (a / 4) (by omega)
    have h1 := b64index_b64char (a % 4 * 16) (by omega)
    simp only [b64encodeBytes, b64decodeChars, h0, h1, if_pos rfl,
      and_self, if_true]
    have : a / 4 * 4 + a % 4 * 16 / 16 = a := by omega
    rw [this]
  | [a, b], h => by
    have ha : a < 256 := h a (by simp)
    have hb : b < 256 := h b (by simp)
    have h0 := b64index_b64char (a / 4) (by omega)
    have h1 := b64index_b64char (a % 4 * 16 + b / 16) (by omega)
    have h2 := b64index_b64char (b % 16 * 4) (by omega)
    have hne : b64char (b % 16 * 4) ≠ '=' := b64char_ne_pad _ (by omega)
    simp only [b64encodeBytes, b64decodeChars, h0, h1, h2, if_neg hne]
    simp
    omega
  | a :: b :: c :: rest, h => by
    have ha : a < 256 := h a (by simp)
    have hb : b < 256 := h b (by simp)
    have hc : c < 256 := h c (by simp)
    have ih := b64decode_b64encodeBytes rest (fun y hy => h y (by simp [hy]))
    have h0 := b64index_b64char (a / 4) (by omega)
    have h1 := b64index_b64char (a % 4 * 16 + b / 16) (by omega)
    have h2 := b64index_b64char (b % 16 * 4 + c / 64) (by omega)
    have h3 := b64index_b64char (c % 64) (by omega)
    have hne2 : b64char (b % 16 * 4 + c / 64) ≠ '=' := b64char_ne_pad _ (by omega)
    have hne3 : b64char (c % 64) ≠ '=' := b64char_ne_pad _ (by omega)
    simp only [b64encodeBytes, b64decodeChars, h0, h1, h2, h3, if_neg hne2,
      if_neg hne3, ih]
    simp
    omega

/-- Every byte produced by the decoder is below 256. -/
theorem b64decodeChars_lt_256 : ∀ (s : List Char) (x : List Nat),
    b64decodeChars s = some x → ∀ b ∈ x, b < 256
  | [], x, h => by
    simp only [b64decodeChars, Option.some.injEq] at h
    subst h
    simp
  | [c0], x, h => by simp [b64decodeChars] at h
  | [c0, c1], x, h => by simp [b64decodeChars] at h
  | [c0, c1, c2], x, h => by simp [b64decodeChars] at h
  | c0 :: c1 :: c2 :: c3 :: rest, x, h => by
    have ih := b64decodeChars_lt_256 rest
    simp only [b64decodeChars] at h
    split at h
    · rename_i i0 i1 hi0 hi1
      have l0 := b64index_lt _ _ hi0
      have l1 := b64index_lt _ _ hi1
      split at h
      · split at h
        · cases h
          intro y hy
          simp at hy
          omega
        · exact absurd h (by simp)
      · split at h
        · rename_i i2 hi2
          have l2 := b64index_lt _ _ hi2
          split at h
          · split at h
            · cases h
              intro y hy
              simp at hy
              rcases hy with hy | hy <;> omega
            · exact absurd h (by simp)
          · split at h
            · rename_i i3 tl hi3 htl
              have l3 := b64index_lt _ _ hi3
              cases h
              intro y hy
              simp at hy
              rcases hy with hy | hy | hy | hy
              · omega
              · omega
              · omega
              · exact ih tl htl y hy
            · exact absurd h (by simp)
        · exact absurd h (by simp)
    · exact absurd h (by simp)

/-- String-level round-trip: `base64.b64decode(base64.b64encode(x)) == x`. -/
theorem b64decode_b64encode (x : List Nat) (h : ∀ b ∈ x, b < 256) :
    b64decode (b64encode x) = some x := by
  have : (b64encodeBytes x).asString.toList = b64encodeBytes x := rfl
  simp only [b64decode, b64encode, this]
  exact b64decode_b64encodeBytes x h

/-- String-level byte bound for the decoder. -/
theorem b64decode_lt_256 (s : String) (x : List Nat)
    (h : b64decode s = some x) : ∀ b ∈ x, b < 256 :=
  b64decodeChars_lt_256 s.toList x h


/-- Upstream writes count as neither cancellation nor close. -/
theorem countP_map_upstreamWrite (p : RelayAction → Bool) (fs : List String)
    (hp : ∀ s, p (RelayAction.upstreamWrite s) = false) :
    (fs.map RelayAction.upstreamWrite).countP p = 0 := by
  rw [List.countP_map]
  exact List.countP_eq_zero.mpr (by intro a _; simp [Function.comp, hp])

/-- A step of the inbound pump preserves the supervisor invariant. -/
theorem stepInPump_inv (st : RelayState) (h : RelayInv st) :
    RelayInv (stepInPump st) := by
  obtain ⟨cs, us, is, os, ph, tr, cc⟩ := st
  by_cases hr : is = PumpStatus.running
  · subst hr
    cases ph
    · simp only [RelayInv] at h
      obtain ⟨h1, h2, h3⟩ := h
      cases cs
      · exact ⟨h1, h2, h3⟩
      · next hd rest =>
        cases hd
        · next p =>
          rcases hs : client_to_gemini_step p with ⟨fs, oc⟩
          cases oc
          · simp only [stepInPump, hs, RelayInv, if_pos rfl]
            refine ⟨h1, ?_, ?_⟩ <;>
              simp [List.countP_append, h2, h3, countP_map_upstreamWrite,
                RelayAction.isCancel, RelayAction.isUpstreamClose]
          · simp only [stepInPump, hs, RelayInv, if_pos rfl]
            refine ⟨h1, ?_, ?_⟩ <;>
              simp [List.countP_append, h2, h3, countP_map_upstreamWrite,
                RelayAction.isCancel, RelayAction.isUpstreamClose]
        · simp only [stepInPump, RelayInv]
          exact ⟨h1, h2, h3⟩
    · simp only [RelayInv] at h
      exact absurd rfl h.2.2.2.1
    · simp only [RelayInv] at h
      exact absurd rfl h.2.1
  · have : stepInPump ⟨cs, us, is, os, ph, tr, cc⟩ = ⟨cs, us, is, os, ph, tr, cc⟩ := by
      simp [stepInPump, hr]
    rw [this]
    exact h

/-- A step of the outbound pump preserves the supervisor invariant. -/
theorem stepOutPump_inv (st : RelayState) (h : RelayInv st) :
    RelayInv (stepOutPump st) := by
  obtain ⟨cs, us, is, os, ph, tr, cc⟩ := st
  by_cases hr : os = PumpStatus.running
  · subst hr
    cases ph
    · simp only [RelayInv] at h
      obtain ⟨h1, h2, h3⟩ := h
      cases us
      · exact ⟨h1, h2, h3⟩
      · next hd rest =>
        cases hd
        · next evt ok =>
          cases ok
          · simp only [stepOutPump, RelayInv, if_pos rfl]
            exact ⟨h1, h2, h3⟩
          · simp only [stepOutPump, RelayInv, if_pos rfl]
            refine ⟨h1, ?_, ?_⟩ <;> simp [List.countP_append, h2, h3,
              RelayAction.isCancel, RelayAction.isUpstreamClose]
        · simp only [stepOutPump, RelayInv]
          exact ⟨h1, h2, h3⟩
    · simp only [RelayInv] at h
      exact absurd rfl h.2.2.2.2
    · simp only [RelayInv] at h
      exact absurd rfl h.2.2.1
  · have : stepOutPump ⟨cs, us, is, os, ph, tr, cc⟩ = ⟨cs, us, is, os, ph, tr, cc⟩ := by
      simp [stepOutPump, hr]
    rw [this]
    exact h

/-- A supervisor step preserves the supervisor invariant. -/
theorem stepSup_inv (st : RelayState) (h : RelayInv st) :
    RelayInv (stepSup st) := by
  obtain ⟨cs, us, is, os, ph, tr, cc⟩ := st
  cases ph
  · simp only [RelayInv] at h
    obtain ⟨h1, h2, h3⟩ := h
    by_cases htr : is = PumpStatus.finished ∨ is = PumpStatus.errored ∨
        os = PumpStatus.finished ∨ os = PumpStatus.errored
    · simp only [stepSup, if_pos htr, RelayInv]
      refine ⟨h1, ?_, ?_, ?_, ?_⟩
      · simp [List.countP_append, h2, RelayAction.isCancel]
      · simp [List.countP_append, h3, RelayAction.isCancel, RelayAction.isUpstreamClose]
      · by_cases hi : is = PumpStatus.running <;> simp [hi]
      · by_cases ho : os = PumpStatus.running <;> simp [ho]
    · simp only [stepSup, if_neg htr, RelayInv]
      exact ⟨h1, h2, h3⟩
  · simp only [RelayInv] at h
    obtain ⟨h1, h2, h3, h4, h5⟩ := h
    simp only [stepSup, RelayInv]
    exact ⟨by omega, h4, h5, tr, rfl, h2, h3⟩
  · simp only [RelayInv] at h ⊢
    exact h

/-- Every scheduled step preserves the supervisor invariant. -/
theorem relayStep_inv (w : Who) (st : RelayState) (h : RelayInv st) :
    RelayInv (relayStep w st) := by
  cases w
  · exact stepInPump_inv st h
  · exact stepOutPump_inv st h
  · exact stepSup_inv st h

/-- The supervisor invariant holds along every schedule. -/
theorem relayRun_inv : ∀ (sched : List Who) (st : RelayState),
    RelayInv st → RelayInv (relayRun sched st)
  | [], _, h => h
  | w :: ws, st, h => relayRun_inv ws (relayStep w st) (relayStep_inv w st h)

/-- The supervisor invariant holds initially. -/
theorem initRelay_inv (cs : List ClientIn) (us : List UpstreamIn) :
    RelayInv (initRelay cs us) := ⟨rfl, rfl, rfl⟩

/-! ### Claim theorems -/


/-- C7: for every successful upstream connect, the connection URL is the
fixed base path with the credential appended as a `?key=` query parameter,
the maximum inbound frame size is at least 32 MiB, and the first frame
written after the transport handshake is the setup frame declaring the
configured model, both modalities and the fixed instruction string. -/
theorem claim_C7_connect_setup (key model : String) :
    (GeminiLiveSession.init key model).connect.url =
      GEMINI_LIVE_WS ++ "?key=" ++ key ∧
    32 * 1024 * 1024 ≤ (GeminiLiveSession.init key model).connect.max_size ∧
    (GeminiLiveSession.init key model).connect.writes =
      [(Json.obj [("setup", Json.obj
        [("model", Json.str model),
         ("response", Json.obj
           [("modalities", Json.arr [Json.str "AUDIO", Json.str "TEXT"]),
            ("instructions", Json.str "You are a helpful assistant.")])])]).dumps] :=
  ⟨rfl, le_refl _, rfl⟩

/-- C8: `close()` is idempotent — closing a closed session leaves the same
session state — and closing a session that was never connected succeeds
without touching any transport. -/
theorem claim_C8_close_idempotent (s : GeminiLiveSession) (key model : String) :
    s.close.1.close.1 = s.close.1 ∧
    (GeminiLiveSession.init key model).close = (GeminiLiveSession.init key model, 0) := by
  constructor
  · cases h : s.ws <;> simp [GeminiLiveSession.close, h]
  · rfl

/-- C2: when the credential is absent (Python-falsy), the handler sends
exactly one frame — the `Missing GOOGLE_API_KEY` error object — then
closes the client connection, and performs no upstream action at all. -/
theorem claim_C2_missing_credential (inp : WsInput) (sched : List Who)
    (h : credentialMissing inp.apiKey = true) :
    ws_endpoint inp sched =
      ([.clientSend missingKeyFrame, .clientClose], .returned) ∧
    (ws_endpoint inp sched).1.countP RelayAction.isClientSend = 1 ∧
    (ws_endpoint inp sched).1.countP RelayAction.isUpstreamAction = 0 := by
  have he : ws_endpoint inp sched =
      ([.clientSend missingKeyFrame, .clientClose], .returned) := by
    simp [ws_endpoint, h]
  refine ⟨he, ?_, ?_⟩ <;> rw [he]
  · rfl
  · rfl

/-- Closed instance of C2 at a concrete input. -/
theorem claim_C2_missing_credential_witness :
    ws_endpoint ⟨none, "models/gemini-2.5-flash", true, [], []⟩ [] =
      ([.clientSend missingKeyFrame, .clientClose], .returned) ∧
    (ws_endpoint ⟨none, "models/gemini-2.5-flash", true, [], []⟩ []).1.countP
      RelayAction.isClientSend = 1 ∧
    (ws_endpoint ⟨none, "models/gemini-2.5-flash", true, [], []⟩ []).1.countP
      RelayAction.isUpstreamAction = 0 :=
  claim_C2_missing_credential ⟨none, "models/gemini-2.5-flash", true, [], []⟩ [] rfl

/-- C5: when the upstream connect fails, the handler raises before either
pump starts: no frame of any kind — in particular no `"gemini"` envelope —
is ever sent to the client, and the framework closes the client socket. -/
theorem claim_C5_connect_failure (inp : WsInput) (sched : List Who)
    (hk : credentialMissing inp.apiKey = false) (hc : inp.connectOk = false) :
    (handle_ws inp sched).1 =
      [.upstreamConnect (GEMINI_LIVE_WS ++ "?key=" ++ inp.apiKey.getD "")
        (32 * 1024 * 1024), .clientClose] ∧
    (handle_ws inp sched).1.countP RelayAction.isClientSend = 0 ∧
    (handle_ws inp sched).1.any RelayAction.isClientClose = true ∧
    (ws_endpoint inp sched).2 = .raised := by
  have he : ws_endpoint inp sched =
      ([.upstreamConnect (GEMINI_LIVE_WS ++ "?key=" ++ inp.apiKey.getD "")
        (32 * 1024 * 1024)], .raised) := by
    simp [ws_endpoint, hk, hc, GeminiLiveSession.connect, GeminiLiveSession.init]
  have hw : (handle_ws inp sched).1 =
      [.upstreamConnect (GEMINI_LIVE_WS ++ "?key=" ++ inp.apiKey.getD "")
        (32 * 1024 * 1024), .clientClose] := by
    simp [handle_ws, he, RelayAction.isClientClose]
  refine ⟨hw, ?_, ?_, by rw [he]⟩ <;> rw [hw] <;> rfl

/-- Closed instance of C5 at a concrete input. -/
theorem claim_C5_connect_failure_witness :
    (handle_ws ⟨some "k", "m", false, [], []⟩ []).1 =
      [.upstreamConnect (GEMINI_LIVE_WS ++ "?key=" ++ "k") (32 * 1024 * 1024),
       .clientClose] ∧
    (handle_ws ⟨some "k", "m", false, [], []⟩ []).1.countP
      RelayAction.isClientSend = 0 ∧
    (handle_ws ⟨some "k", "m", false, [], []⟩ []).1.any
      RelayAction.isClientClose = true ∧
    (ws_endpoint ⟨some "k", "m", false, [], []⟩ []).2 = .raised :=
  claim_C5_connect_failure ⟨some "k", "m", false, [], []⟩ [] rfl rfl

/-- C4: a `{"type":"text","text":s}` frame makes the inbound pump write
exactly the upstream frame `{"input":{"text":s}}`, and every upstream
event is forwarded to the client wrapped as `{"type":"gemini","data":e}`
with the event passed through unmodified. -/
theorem claim_C4_text_and_passthrough (s : String) (e : Json)
    (urest : List UpstreamIn) :
    client_to_gemini_step (some (.obj [("type", .str "text"), ("text", .str s)])) =
      ([GeminiLiveSession.send_user_text (.str s)], .next) ∧
    GeminiLiveSession.send_user_text (.str s) =
      (Json.obj [("input", Json.obj [("text", Json.str s)])]).dumps ∧
    gemini_to_client (.item e true :: urest) =
      (geminiEnvelope e :: (gemini_to_client urest).1, (gemini_to_client urest).2) ∧
    geminiEnvelope e = .obj [("type", .str "gemini"), ("data", e)] := by
  refine ⟨?_, rfl, rfl, rfl⟩
  simp [client_to_gemini_step, Json.getItem, pyLookup]


/-- C9: a well-formed JSON frame whose `type` is neither `"text"` nor
`"audio"` triggers no upstream send and no exception: the pump silently
drops it and continues with the next frame. -/
theorem claim_C9_unknown_type_dropped (j tv : Json) (rest : List ClientIn)
    (ht : j.getItem "type" = .ok tv)
    (h1 : tv ≠ .str "text") (h2 : tv ≠ .str "audio") :
    client_to_gemini_step (some j) = ([], .next) ∧
    client_to_gemini (.msg (some j) :: rest) = client_to_gemini rest := by
  have hstep : client_to_gemini_step (some j) = ([], .next) := by
    simp only [client_to_gemini_step, ht]
    cases tv with
    | str t =>
      have e1 : t ≠ "text" := fun he => h1 (by rw [he])
      have e2 : t ≠ "audio" := fun he => h2 (by rw [he])
      simp [e1, e2]
    | null => rfl
    | bool b => rfl
    | num n => rfl
    | arr xs => rfl
    | obj kvs => rfl
  refine ⟨hstep, ?_⟩
  simp [client_to_gemini, hstep]

/-- Closed instance of C9 at a concrete input. -/
theorem claim_C9_unknown_type_dropped_witness :
    client_to_gemini_step (some (.obj [("type", .str "video")])) = ([], .next) ∧
    client_to_gemini [.msg (some (.obj [("type", .str "video")]))] =
      client_to_gemini [] :=
  claim_C9_unknown_type_dropped (.obj [("type", .str "video")]) (.str "video") []
    rfl (by simp) (by simp)

/-- C3: a `{"type":"audio","pcm16":b}` frame with `b` valid base64 makes
the inbound pump call `send_user_audio` with the decoded bytes; the frame
written upstream is the serialization of the audio input event whose
`data` is the re-encoding of those bytes, and that `data` decodes back to
byte-for-byte the same bytes the client encoded. -/
theorem claim_C3_audio_roundtrip (b : String) (bytes : List Nat)
    (hb : b64decode b = some bytes) :
    client_to_gemini_step (some (.obj [("type", .str "audio"), ("pcm16", .str b)])) =
      ([GeminiLiveSession.send_user_audio bytes], .next) ∧
    GeminiLiveSession.send_user_audio bytes =
      (Json.obj [("input", Json.obj [("audio", Json.obj
        [("mime_type", Json.str "audio/pcm;rate=16000"),
         ("data", Json.str (b64encode bytes))])])]).dumps ∧
    b64decode (b64encode bytes) = some bytes := by
  refine ⟨?_, rfl, b64decode_b64encode bytes (b64decode_lt_256 b bytes hb)⟩
  simp [client_to_gemini_step, Json.getItem, pyLookup, hb]

/-- Closed instance of C3 at a concrete input. -/
theorem claim_C3_audio_roundtrip_witness :
    client_to_gemini_step (some (.obj [("type", .str "audio"), ("pcm16", .str "QUJD")])) =
      ([GeminiLiveSession.send_user_audio [65, 66, 67]], .next) ∧
    GeminiLiveSession.send_user_audio [65, 66, 67] =
      (Json.obj [("input", Json.obj [("audio", Json.obj
        [("mime_type", Json.str "audio/pcm;rate=16000"),
         ("data", Json.str (b64encode [65, 66, 67]))])])]).dumps ∧
    b64decode (b64encode [65, 66, 67]) = some [65, 66, 67] :=
  claim_C3_audio_roundtrip "QUJD" [65, 66, 67] rfl


/-- C10: a malformed client frame — non-JSON text, JSON without a `type`
key, or a `text`/`audio` frame lacking its payload key — raises an
exception that the pump's `except WebSocketDisconnect` does not catch: the
pump fails, and the supervisor then cancels the sibling pump and closes
the upstream session. -/
theorem claim_C10_malformed_raises (p : Option Json) (cs : List ClientIn)
    (us : List UpstreamIn) (h : malformedFrame p) :
    (∃ e, client_to_gemini_step p = ([], .errored e)) ∧
    (∃ e, (client_to_gemini (.msg p :: cs)).2 = .errored e) ∧
    (relayRun [.inP, .sup, .sup] (initRelay (.msg p :: cs) us)).phase = .done ∧
    (relayRun [.inP, .sup, .sup] (initRelay (.msg p :: cs) us)).outStatus = .cancelled ∧
    (relayRun [.inP, .sup, .sup] (initRelay (.msg p :: cs) us)).closeCalls = 1 ∧
    (relayRun [.inP, .sup, .sup] (initRelay (.msg p :: cs) us)).trace.countP
      RelayAction.isUpstreamClose = 1 := by
  obtain ⟨e, hstep⟩ : ∃ e, client_to_gemini_step p = ([], .errored e) := by
    rcases h with hnone | ⟨d, hd, hcase⟩
    · exact ⟨.jsonDecodeError, by subst hnone; rfl⟩
    · subst hd
      rcases hcase with ⟨e, he⟩ | ⟨ht, e, he⟩ | ⟨ht, e, he⟩
      · exact ⟨e, by simp [client_to_gemini_step, he]⟩
      · exact ⟨e, by simp [client_to_gemini_step, ht, he]⟩
      · exact ⟨e, by simp [client_to_gemini_step, ht, he]⟩
  have hrun : relayRun [.inP, .sup, .sup] (initRelay (.msg p :: cs) us) =
      { clientScript := cs, upstreamScript := us,
        inStatus := .errored, outStatus := .cancelled, phase := .done,
        trace := [.cancelTasks, .upstreamClose], closeCalls := 1 } := by
    simp [relayRun, relayStep, stepInPump, stepSup, initRelay, hstep]
  refine ⟨⟨e, hstep⟩, ⟨e, ?_⟩, ?_, ?_, ?_, ?_⟩
  · simp [client_to_gemini, hstep]
  · rw [hrun]
  · rw [hrun]
  · rw [hrun]
  · rw [hrun]
    rfl

/-- Closed instance of C10 at a concrete input (non-JSON text). -/
theorem claim_C10_malformed_raises_witness :
    (∃ e, client_to_gemini_step none = ([], .errored e)) ∧
    (∃ e, (client_to_gemini [.msg none]).2 = .errored e) ∧
    (relayRun [.inP, .sup, .sup] (initRelay [.msg none] [])).phase = .done ∧
    (relayRun [.inP, .sup, .sup] (initRelay [.msg none] [])).outStatus = .cancelled ∧
    (relayRun [.inP, .sup, .sup] (initRelay [.msg none] [])).closeCalls = 1 ∧
    (relayRun [.inP, .sup, .sup] (initRelay [.msg none] [])).trace.countP
      RelayAction.isUpstreamClose = 1 :=
  claim_C10_malformed_raises none [] [] (Or.inl rfl)

/-- C6: once the client is gone, a `send_json` failure inside
`gemini_to_client` terminates that pump with an exception, but the
exception never propagates out of the relay handler: `asyncio.wait`
absorbs task failures, and `ws_endpoint` still returns normally. -/
theorem claim_C6_send_error_swallowed (inp : WsInput) (sched : List Who)
    (hk : credentialMissing inp.apiKey = false) (hc : inp.connectOk = true)
    (_herr : (relayRun sched (initRelay inp.clientScript inp.upstreamScript)).outStatus
      = .errored)
    (hdone : (relayRun sched (initRelay inp.clientScript inp.upstreamScript)).phase
      = .done) :
    (∀ e rest, gemini_to_client (.item e false :: rest) =
      ([], .errored .transportError)) ∧
    (ws_endpoint inp sched).2 = .returned := by
  refine ⟨fun e rest => rfl, ?_⟩
  simp [ws_endpoint, hk, hc, hdone]

/-- Closed instance of C6 at a concrete input: winning send, then the
client vanishes and the next send raises; the relay still returns. -/
theorem claim_C6_send_error_swallowed_witness :
    ((∀ e rest, gemini_to_client (.item e false :: rest) =
      ([], .errored .transportError)) ∧
     (ws_endpoint ⟨some "k", "m", true, [], [.item (.str "x") false]⟩
       [.outP, .sup, .sup]).2 = .returned) :=
  claim_C6_send_error_swallowed ⟨some "k", "m", true, [], [.item (.str "x") false]⟩
    [.outP, .sup, .sup] rfl rfl (by decide) (by decide)

/-- C1: on every schedule on which the relay handler completes — whichever
pump terminated first, including both pumps terminating before the
supervisor observes either — the upstream session is closed exactly once,
both pumps have been awaited or cancelled (neither is still running), and
the single close is the final action, after the one cancellation of the
task pair. -/
theorem claim_C1_close_exactly_once (cs : List ClientIn) (us : List UpstreamIn)
    (sched : List Who)
    (h : (relayRun sched (initRelay cs us)).phase = .done) :
    (relayRun sched (initRelay cs us)).closeCalls = 1 ∧
    (relayRun sched (initRelay cs us)).trace.countP RelayAction.isUpstreamClose = 1 ∧
    (relayRun sched (initRelay cs us)).inStatus ≠ .running ∧
    (relayRun sched (initRelay cs us)).outStatus ≠ .running ∧
    ∃ pre, (relayRun sched (initRelay cs us)).trace = pre ++ [.upstreamClose] ∧
      pre.countP RelayAction.isCancel = 1 ∧
      pre.countP RelayAction.isUpstreamClose = 0 := by
  have hinv := relayRun_inv sched (initRelay cs us) (initRelay_inv cs us)
  rw [RelayInv, h] at hinv
  obtain ⟨c1, c2, c3, pre, hpre, hcn, hcl⟩ := hinv
  refine ⟨c1, ?_, c2, c3, pre, hpre, hcn, hcl⟩
  rw [hpre, List.countP_append, hcl]
  rfl

/-- Closed instance of C1: both pumps terminate before the supervisor
observes either (near-simultaneous termination), on a schedule that runs
the relay to completion. -/
theorem claim_C1_close_exactly_once_witness :
    (relayRun [.inP, .outP, .sup, .sup]
      (initRelay [.disconnect] [.closed])).phase = .done ∧
    ((relayRun [.inP, .outP, .sup, .sup]
        (initRelay [.disconnect] [.closed])).closeCalls = 1 ∧
     (relayRun [.inP, .outP, .sup, .sup]
        (initRelay [.disconnect] [.closed])).trace.countP
          RelayAction.isUpstreamClose = 1 ∧
     (relayRun [.inP, .outP, .sup, .sup]
        (initRelay [.disconnect] [.closed])).inStatus ≠ .running ∧
     (relayRun [.inP, .outP, .sup, .sup]
        (initRelay [.disconnect] [.closed])).outStatus ≠ .running ∧
     ∃ pre, (relayRun [.inP, .outP, .sup, .sup]
        (initRelay [.disconnect] [.closed])).trace = pre ++ [.upstreamClose] ∧
       pre.countP RelayAction.isCancel = 1 ∧
       pre.countP RelayAction.isUpstreamClose = 0) :=
  ⟨rfl, claim_C1_close_exactly_once [.disconnect] [.closed]
    [.inP, .outP, .sup, .sup] rfl⟩

end App
